import Mathlib

/-!
Verification of the health-action tracking backend (`backend/agent.py`,
`backend/api.py`, `backend/main.py`).

The Python code is shallowly embedded: the two external LLM calls are the
only effectful boundaries, and each is modelled by passing the service's
textual reply (or `Option.none` for a failed call) as an explicit argument.
JSON payloads are modelled by the inductive `JsonVal`; `json.loads` is
embedded as the executable recursive-descent function `jsonLoads` below,
covering the standard JSON grammar accepted by Python (objects, arrays,
strings with escapes, integers, decimal/exponent floats, `true`/`false`/
`null`, and the Python extensions `NaN`/`Infinity`/`-Infinity`).
Python floats are never computed with anywhere in the program, so float
literals are kept as their lexeme.  Wall-clock timestamps
(`datetime.now().isoformat()`) are passed in as an explicit `now : String`.
-/

/-- A Python/JSON value as produced by `json.loads`. -/
inductive JsonVal where
  | null
  | bool (b : Bool)
  | num (n : Int)
  | float (lexeme : String)
  | str (s : String)
  | arr (elems : List JsonVal)
  | obj (fields : List (String × JsonVal))

/-- `dict.get(k)` on a parsed JSON object: `none` when the key is absent.
Python dicts keep the last value for a duplicated key, hence the reversed
search. -/
def pyGet (fields : List (String × JsonVal)) (k : String) : Option JsonVal :=
  (fields.reverse.find? (fun p => p.1 = k)).map (fun p => p.2)

/-- `dict.get(k, default)`. -/
def pyGetD (fields : List (String × JsonVal)) (k : String) (d : JsonVal) : JsonVal :=
  (pyGet fields k).getD d

/-- Truthiness of a float literal: Python `0.0`, `-0.0`, `0e5`, ... are falsy,
`NaN` and the infinities are truthy. -/
def floatTruthy (lexeme : String) : Bool :=
  if lexeme = "NaN" ∨ lexeme = "Infinity" ∨ lexeme = "-Infinity" then true
  else (lexeme.data.takeWhile (fun c => c ≠ 'e' ∧ c ≠ 'E')).any (fun c => c.isDigit ∧ c ≠ '0')

/-- Python truthiness of a JSON value (`bool(v)`). -/
def truthy : JsonVal → Bool
  | .null => false
  | .bool b => b
  | .num n => n ≠ 0
  | .float s => floatTruthy s
  | .str s => s ≠ ""
  | .arr xs => ¬ xs.isEmpty
  | .obj fs => ¬ fs.isEmpty

/-- Python `a or b` for a JSON value `a` (result of the `or` expressions in
`agent.py`, e.g. `detected_action or agent_state.current_action`). -/
def pyOr (a b : JsonVal) : JsonVal := if truthy a then a else b

/-- Python `v == s` where `s` is a string literal: true exactly for an equal
JSON string. -/
def jstrEq (v : JsonVal) (s : String) : Bool :=
  match v with
  | .str t => t = s
  | _ => false

/-- Whether a JSON value is a string (Pydantic v2 accepts only actual `str`
values for `str`-typed fields; no numeric coercion). -/
def JsonVal.isStr : JsonVal → Bool
  | .str _ => true
  | _ => false

/-- The underlying string of a JSON string value (`""` otherwise). -/
def JsonVal.strVal : JsonVal → String
  | .str s => s
  | _ => ""

/-! ### `json.loads`, embedded

A fuel-indexed recursive-descent parser for the grammar accepted by Python's
`json.loads` with its default settings.  The fuel bounds recursion depth and
is chosen large enough (`4 * length + 16`) that it is never exhausted on any
input: every level of nesting consumes input characters. -/

/-- JSON whitespace (`' '`, `'\t'`, `'\n'`, `'\r'`), skipped between tokens. -/
def skipWs : List Char → List Char
  | [] => []
  | c :: cs => if c = ' ' ∨ c = '\t' ∨ c = '\n' ∨ c = '\r' then skipWs cs else c :: cs

/-- Value of a hexadecimal digit. -/
def hexVal? (c : Char) : Option Nat :=
  if '0' ≤ c ∧ c ≤ '9' then some (c.toNat - '0'.toNat)
  else if 'a' ≤ c ∧ c ≤ 'f' then some (c.toNat - 'a'.toNat + 10)
  else if 'A' ≤ c ∧ c ≤ 'F' then some (c.toNat - 'A'.toNat + 10)
  else none

/-- The character produced by a single-letter JSON escape, if the letter is a
valid escape. -/
def escChar? (e : Char) : Option Char :=
  if e = '"' then some '"'
  else if e = '\\' then some '\\'
  else if e = '/' then some '/'
  else if e = 'b' then some '\x08'
  else if e = 'f' then some '\x0c'
  else if e = 'n' then some '\n'
  else if e = 'r' then some '\r'
  else if e = 't' then some '\t'
  else none

/-- Body of a JSON string literal, after the opening quote.  Unescaped control
characters are rejected (Python `strict=True`); `\uXXXX` decodes the code
unit (an out-of-range unit degrades to NUL — no claim inspects such data). -/
def parseStrBody (acc : List Char) : List Char → Option (String × List Char)
  | [] => none
  | '"' :: cs => some (String.mk acc.reverse, cs)
  | '\\' :: 'u' :: h1 :: h2 :: h3 :: h4 :: cs =>
    match hexVal? h1, hexVal? h2, hexVal? h3, hexVal? h4 with
    | some a, some b, some c3, some d =>
      parseStrBody (Char.ofNat (((a * 16 + b) * 16 + c3) * 16 + d) :: acc) cs
    | _, _, _, _ => none
  | '\\' :: e :: cs =>
    match escChar? e with
    | some c => parseStrBody (c :: acc) cs
    | none => none
  | c :: cs => if c.toNat < 32 then none else parseStrBody (c :: acc) cs

/-- Leading run of decimal digits. -/
def digitRun : List Char → List Char × List Char
  | [] => ([], [])
  | c :: cs =>
    if c.isDigit then
      let (ds, rest) := digitRun cs
      (c :: ds, rest)
    else ([], c :: cs)

/-- Numeric value of a digit run. -/
def digitsToNat (ds : List Char) : Nat :=
  ds.foldl (fun acc c => 10 * acc + (c.toNat - '0'.toNat)) 0

/-- Optional fraction part `.[0-9]+`; consumed only when well formed. -/
def fracPart (cs : List Char) : List Char × List Char :=
  match cs with
  | '.' :: r =>
    match digitRun r with
    | ([], _) => ([], cs)
    | (ds, r2) => ('.' :: ds, r2)
  | _ => ([], cs)

/-- Optional exponent part `[eE][+-]?[0-9]+`; consumed only when well formed. -/
def expPart (cs : List Char) : List Char × List Char :=
  match cs with
  | e :: r =>
    if e = 'e' ∨ e = 'E' then
      match r with
      | s :: r2 =>
        if s = '+' ∨ s = '-' then
          match digitRun r2 with
          | ([], _) => ([], cs)
          | (ds, r3) => (e :: s :: ds, r3)
        else
          match digitRun r with
          | ([], _) => ([], cs)
          | (ds, r3) => (e :: ds, r3)
      | [] => ([], cs)
    else ([], cs)
  | [] => ([], [])

/-- A JSON number token: `-?(0|[1-9][0-9]*)(\.[0-9]+)?([eE][+-]?[0-9]+)?`.
Pure integer literals become `.num`; any fraction or exponent makes the token
a float, kept as its lexeme. -/
def parseNumberLit (cs : List Char) : Option (JsonVal × List Char) :=
  let (neg, cs1) : Bool × List Char :=
    match cs with
    | '-' :: r => (true, r)
    | _ => (false, cs)
  match cs1 with
  | [] => none
  | c :: rest =>
    if ¬ c.isDigit then none
    else
      let (intDs, rest1) : List Char × List Char :=
        if c = '0' then (['0'], rest)
        else
          let (ds, r) := digitRun rest
          (c :: ds, r)
      let (frDs, rest2) := fracPart rest1
      let (exDs, rest3) := expPart rest2
      if frDs = [] ∧ exDs = [] then
        let n : Int := digitsToNat intDs
        some (.num (if neg then -n else n), rest1)
      else
        some (.float (String.mk ((if neg then ['-'] else []) ++ intDs ++ frDs ++ exDs)), rest3)

/-- The pending task of the recursive-descent parser: a value, the body of an
object just after `{`, the members of an object, or the elements of a
non-empty array. -/
inductive ParseJob where
  | val (cs : List Char)
  | objBody (cs : List Char)
  | members (cs : List Char) (acc : List (String × JsonVal))
  | elems (cs : List Char) (acc : List JsonVal)

/-- The recursive-descent JSON parser, structurally recursive on its fuel
(kept as a single function so that it reduces definitionally).  Whitespace is
already skipped at the head of every job's input. -/
def parseJ : Nat → ParseJob → Option (JsonVal × List Char)
  | 0, _ => none
  | fuel + 1, job =>
    match job with
    | .val cs =>
      match cs with
      | [] => none
      | '{' :: rest => parseJ fuel (.objBody (skipWs rest))
      | '[' :: rest =>
        match skipWs rest with
        | ']' :: r2 => some (.arr [], r2)
        | r2 => parseJ fuel (.elems r2 [])
      | '"' :: rest => (parseStrBody [] rest).map (fun p => (.str p.1, p.2))
      | 't' :: 'r' :: 'u' :: 'e' :: r => some (.bool true, r)
      | 'f' :: 'a' :: 'l' :: 's' :: 'e' :: r => some (.bool false, r)
      | 'n' :: 'u' :: 'l' :: 'l' :: r => some (.null, r)
      | 'N' :: 'a' :: 'N' :: r => some (.float "NaN", r)
      | 'I' :: 'n' :: 'f' :: 'i' :: 'n' :: 'i' :: 't' :: 'y' :: r =>
        some (.float "Infinity", r)
      | '-' :: 'I' :: 'n' :: 'f' :: 'i' :: 'n' :: 'i' :: 't' :: 'y' :: r =>
        some (.float "-Infinity", r)
      | _ => parseNumberLit cs
    | .objBody cs =>
      match cs with
      | '}' :: r => some (.obj [], r)
      | _ => parseJ fuel (.members cs [])
    | .members cs acc =>
      match cs with
      | '"' :: rest =>
        match parseStrBody [] rest with
        | none => none
        | some (k, r1) =>
          match skipWs r1 with
          | ':' :: r2 =>
            match parseJ fuel (.val (skipWs r2)) with
            | none => none
            | some (v, r3) =>
              match skipWs r3 with
              | ',' :: r4 => parseJ fuel (.members (skipWs r4) (acc ++ [(k, v)]))
              | '}' :: r4 => some (.obj (acc ++ [(k, v)]), r4)
              | _ => none
          | _ => none
      | _ => none
    | .elems cs acc =>
      match parseJ fuel (.val cs) with
      | none => none
      | some (v, r1) =>
        match skipWs r1 with
        | ',' :: r2 => parseJ fuel (.elems (skipWs r2) (acc ++ [v]))
        | ']' :: r2 => some (.arr (acc ++ [v]), r2)
        | _ => none

/-- One JSON value at the head of the input (whitespace already skipped). -/
def parseVal (fuel : Nat) (cs : List Char) : Option (JsonVal × List Char) :=
  parseJ fuel (.val cs)

/-- `json.loads`: parse a complete document, `none` on `json.JSONDecodeError`. -/
def jsonLoads (s : String) : Option JsonVal :=
  match parseVal (4 * s.length + 16) (skipWs s.data) with
  | some (v, rest) => if skipWs rest = [] then some v else none
  | none => none

/-! ### The code-fence stripping applied before every parse -/

/-- Whitespace for Python `str.strip()` (the ASCII part; the claims never
involve the exotic Unicode spaces Python additionally strips). -/
def isPyWs (c : Char) : Bool :=
  c = ' ' ∨ c = '\t' ∨ c = '\n' ∨ c = '\r' ∨ c = '\x0b' ∨ c = '\x0c'

/-- Python `str.strip()`. -/
def pyStrip (s : String) : String :=
  String.mk (((s.data.dropWhile isPyWs).reverse.dropWhile isPyWs).reverse)

/-- Python `str.removeprefix`. -/
def pyDropPre (s p : String) : String :=
  if p.data.isPrefixOf s.data then String.mk (s.data.drop p.data.length) else s

/-- Python `str.removesuffix`. -/
def pyDropSuf (s p : String) : String :=
  if p.data.reverse.isPrefixOf s.data.reverse then
    String.mk ((s.data.reverse.drop p.data.length).reverse)
  else s

/-- `result.strip().removeprefix("```json").removesuffix("```").strip()`, the
preprocessing applied to every LLM reply before `json.loads` (in
`interpret_image`, `analyze_frame`, `interpret_health_snapshot` and
`search_item_info`). -/
def stripReply (result : String) : String :=
  pyStrip (pyDropSuf (pyDropPre (pyStrip result) "```json") "```")

/-! ### Data model (`backend/agent.py`)

`ProtocolItem`, `ProtocolManager`, `ActionProgress`, `AgentState`, embedded
with the source's field and method names.  Note that `AgentState` is a
Pydantic model without `validate_assignment`, so `push_update` can store a
non-string JSON value in `current_action`; the field is therefore modelled
as `JsonVal`.  Pydantic v2 *does* validate at `ProtocolItem` construction
time, which is modelled by the `PyErr.validation` outcome. -/

/-- A frame: an opaque byte payload. -/
abbrev Frame := List Nat

/-- The Python exceptions relevant to control flow: `AttributeError` (caught
by `interpret_image`'s `except` clause) and `pydantic.ValidationError` (not
caught there). -/
inductive PyErr where
  | attr
  | validation
deriving DecidableEq

/-- One entry of `AgentState.conversation_memory`: the `HumanMessage` holding
a submitted frame, or the `AIMessage` holding the model's raw reply. -/
inductive Message where
  | human (frame : Frame)
  | ai (text : String)
deriving DecidableEq

/-- `ActionProgress` (`str`-valued enum). -/
inductive ActionProgress where
  | started
  | inProgress
  | finished
deriving DecidableEq

/-- `.value` of the enum member. -/
def ActionProgress.value : ActionProgress → String
  | .started => "started"
  | .inProgress => "in progress"
  | .finished => "finished"

/-- `AgentState` with its defaults (`current_action=""`,
`action_progress=FINISHED`, empty memory). -/
structure AgentState where
  current_action : JsonVal := .str ""
  action_progress : ActionProgress := .finished
  conversation_memory : List Message := []

/-- `AgentState.push_update`: unconditionally overwrites both fields. -/
def AgentState.push_update (st : AgentState) (action : JsonVal)
    (progress : ActionProgress) : AgentState :=
  { st with current_action := action, action_progress := progress }

/-- `AgentState.clear_memory`. -/
def AgentState.clear_memory (st : AgentState) : AgentState :=
  { st with conversation_memory := [] }

/-- `ProtocolItem` (only fields that `add_completed_action` sets are ever
non-default). -/
structure ProtocolItem where
  id : String
  name : String
  category : String
  scheduled_time : Option String := none
  status : String := "pending"
  taken_at : Option String := none
  details : List (String × JsonVal) := []

/-- `ProtocolManager` state: `protocol_items`, `completed_actions`, and the
private `_id_counter` starting at 1. -/
structure ProtocolManager where
  protocol_items : List ProtocolItem := []
  completed_actions : List (List (String × JsonVal)) := []
  id_counter : Nat := 1

/-- The freshly constructed `ProtocolManager()`. -/
def ProtocolManager.mkNew : ProtocolManager := {}

/-- `detection.get("item_name") or detection.get("action", "Unknown action")`
— the `name` argument of the `ProtocolItem` built by
`add_completed_action`. -/
def recordName (detection : List (String × JsonVal)) : JsonVal :=
  pyOr ((pyGet detection "item_name").getD .null)
    (pyGetD detection "action" (.str "Unknown action"))

/-- `detection.get("details", {})`, which must be a dict before `.get` is
called on it; a present non-dict value raises `AttributeError`. -/
def detailsOf (detection : List (String × JsonVal)) :
    Except PyErr (List (String × JsonVal)) :=
  match pyGet detection "details" with
  | none => .ok []
  | some (.obj dfs) => .ok dfs
  | some _ => .error .attr

/-- `ProtocolManager.add_completed_action(detection)`.  Evaluation order of
the source: the `details` dict literal is evaluated first (possible
`AttributeError`), then Pydantic validates `name`/`category` as strings
(possible `ValidationError`); only then is state mutated — so on any raise
the manager is unchanged. -/
def ProtocolManager.add_completed_action (pm : ProtocolManager)
    (detection : List (String × JsonVal)) (now : String) :
    Except PyErr (ProtocolItem × ProtocolManager) :=
  match detailsOf detection with
  | .error e => .error e
  | .ok dfs =>
    match recordName detection, pyGetD detection "category" (.str "wellness") with
    | .str nm, .str cat =>
      let item : ProtocolItem :=
        { id := "action_" ++ toString pm.id_counter
          name := nm
          category := cat
          status := "taken"
          taken_at := some now
          details := [("description", pyGetD detection "description" (.str "")),
                      ("quantity", (pyGet dfs "quantity").getD .null),
                      ("dosage", (pyGet dfs "dosage").getD .null),
                      ("brand", (pyGet dfs "brand").getD .null)] }
      .ok (item, { pm with
                    protocol_items := pm.protocol_items ++ [item]
                    completed_actions := pm.completed_actions ++ [detection]
                    id_counter := pm.id_counter + 1 })
    | _, _ => .error .validation

/-- Whether `add_completed_action` succeeds on this payload (details absent
or a dict, computed name and category actual strings). -/
def recordOk (detection : List (String × JsonVal)) : Bool :=
  (match pyGet detection "details" with
   | none => true
   | some (.obj _) => true
   | some _ => false)
  && (recordName detection).isStr
  && (pyGetD detection "category" (.str "wellness")).isStr

/-- The `by_category` dict of `get_summary`: Python
`by_category[cat].append(name)` with first-insertion key order. -/
def addToCategory : List (String × List String) → String → String →
    List (String × List String)
  | [], cat, nm => [(cat, [nm])]
  | p :: rest, cat, nm =>
    if p.1 = cat then (p.1, p.2 ++ [nm]) :: rest
    else p :: addToCategory rest cat nm

/-- `by_category` accumulated over the items in order. -/
def byCategory (items : List ProtocolItem) : List (String × List String) :=
  items.foldl (fun acc it => addToCategory acc it.category it.name) []

/-- The fields of `ProtocolItem.model_dump()`. -/
def itemJsonFields (it : ProtocolItem) : List (String × JsonVal) :=
  [("id", .str it.id), ("name", .str it.name), ("category", .str it.category),
   ("scheduled_time", (it.scheduled_time.map JsonVal.str).getD .null),
   ("status", .str it.status),
   ("taken_at", (it.taken_at.map JsonVal.str).getD .null),
   ("details", .obj it.details)]

/-- `ProtocolItem.model_dump()` as a JSON object. -/
def itemToJson (it : ProtocolItem) : JsonVal :=
  .obj (itemJsonFields it)

/-- `ProtocolManager.get_summary()`: a dict with keys `total_actions`,
`by_category` and `items` — nothing else. -/
def ProtocolManager.get_summary (pm : ProtocolManager) : List (String × JsonVal) :=
  [("total_actions", .num pm.protocol_items.length),
   ("by_category",
     .obj ((byCategory pm.protocol_items).map (fun p => (p.1, .arr (p.2.map .str))))),
   ("items", .arr (pm.protocol_items.map itemToJson))]

/-- `ProtocolManager.clear()`: empties both lists and resets the counter. -/
def ProtocolManager.clear (_pm : ProtocolManager) : ProtocolManager :=
  { protocol_items := [], completed_actions := [], id_counter := 1 }

/-! ### `search_item_info` (`backend/agent.py`)

The external grounded-search call is the oracle `searchRaw : Option String`
(`none` models the call itself raising, which the function's `try` swallows).
The `category` argument only selects the query template sent to the service,
so it cannot affect the modelled result.  The function reads no program
state and returns `none` on every failure path. -/

/-- Python `str.lower()` (ASCII; the inputs involved are ASCII). -/
def pyLower (s : String) : String := String.mk (s.data.map Char.toLower)

/-- `search_item_info(item_name, category)`. -/
def search_item_info (item_name : String) (_category : JsonVal)
    (searchRaw : Option String) : Option JsonVal :=
  if item_name = "" ∨ pyLower item_name = "unknown" ∨ pyLower item_name = "" then none
  else
    match searchRaw with
    | none => none
    | some raw => jsonLoads (stripReply raw)

/-! ### `interpret_image` (`backend/agent.py`)

The classifier call is the oracle `reply : String` (the coerced text content
of the LLM response).  The exchange is appended to `conversation_memory`
*before* parsing.  The `try` block catches `json.JSONDecodeError` (parse
failure) and `AttributeError` (non-dict parse result, or a non-dict
`details` inside `add_completed_action`), but a Pydantic `ValidationError`
escapes to the caller; since Python mutates `agent_state` in place, the
result carries the mutated state in every outcome. -/

/-- Outcome of one `interpret_image` call: `raised` is the uncaught exception
if any, `ret` the returned raw text, plus the (in-place mutated) agent state
and protocol manager. -/
structure StepResult where
  raised : Option PyErr
  ret : String
  state : AgentState
  pm : ProtocolManager

/-- `interpret_image(image_bytes, agent_state, current_action)`; the third
source parameter is accepted but never read. -/
def interpret_image (reply : String) (frame : Frame) (now : String)
    (_current_action : String) (st : AgentState) (pm : ProtocolManager) :
    StepResult :=
  let st1 := { st with
    conversation_memory := st.conversation_memory ++ [.human frame, .ai reply] }
  match jsonLoads (stripReply reply) with
  | some (.obj fields) =>
    let status := pyGetD fields "status" (.str "not detected")
    let detected := pyGetD fields "action" (.str "")
    if jstrEq status "started" then
      ⟨none, reply, st1.push_update detected .started, pm⟩
    else if jstrEq status "in progress" then
      ⟨none, reply, st1.push_update (pyOr detected st1.current_action) .inProgress, pm⟩
    else if jstrEq status "finished" then
      let st2 := st1.push_update (pyOr detected st1.current_action) .finished
      match pm.add_completed_action fields now with
      | .ok (_, pm2) => ⟨none, reply, st2.clear_memory, pm2⟩
      | .error .attr => ⟨none, reply, st2, pm⟩
      | .error .validation => ⟨some .validation, reply, st2, pm⟩
    else ⟨none, reply, st1, pm⟩
  | some _ => ⟨none, reply, st1, pm⟩
  | none => ⟨none, reply, st1, pm⟩

/-- The parsed `status` of a reply when it parses as a dict (`none` when the
reply does not parse to a JSON object). -/
def replyStatus? (reply : String) : Option JsonVal :=
  match jsonLoads (stripReply reply) with
  | some (.obj fields) => some (pyGetD fields "status" (.str "not detected"))
  | _ => none

/-- A sequence of frames, each arriving as its own request: state is threaded
through every call (an uncaught error is reported to that one request's
caller and does not stop later frames). -/
def runFrames (steps : List (String × Frame)) (now : String)
    (st : AgentState) (pm : ProtocolManager) : AgentState × ProtocolManager :=
  steps.foldl
    (fun acc p =>
      let r := interpret_image p.1 p.2 now "" acc.1 acc.2
      (r.state, r.pm))
    (st, pm)

/-! ### The HTTP layer (`backend/api.py`) and the MCP layer (`backend/main.py`)

Both layers share the module-level `agent_state`, the module-level
`frame_buffer` and (through `interpret_image`) the module-level
`protocol_manager`, collected in `ServerState`.  Transport decoding
(base64, request envelopes) stays outside the model: `analyze_frame` is
entered with the decoded frame bytes.  `HTTPException` outcomes are
modelled by their status code. -/

/-- The shared module-level mutable state. -/
structure ServerState where
  agent : AgentState
  pm : ProtocolManager
  buffer : List Frame

/-- `MAX_BUFFER_FRAMES` (both layers). -/
def MAX_BUFFER_FRAMES : Nat := 20

/-- `frame_buffer.append(b)` followed by `pop(0)` when the capacity is
exceeded. -/
def bufPush (buf : List Frame) (f : Frame) : List Frame :=
  let b := buf ++ [f]
  if MAX_BUFFER_FRAMES < b.length then b.drop 1 else b

/-- `POST /api/reset-agent` (`api.py`): clears memory, resets the two agent
fields, empties the frame buffer and clears the protocol manager. -/
def reset_agent (s : ServerState) : ServerState :=
  { agent := { current_action := .str "", action_progress := .finished,
               conversation_memory := [] },
    pm := s.pm.clear,
    buffer := [] }

/-- The JSON body returned by `analyze_frame`; keys that a branch does not
emit are `none`. -/
structure AnalyzeResponse where
  success : Bool
  analysis : JsonVal
  action_in_progress : Bool
  action_completed : Option Bool := none
  detected_action : Option JsonVal := none
  item_name : Option JsonVal := none
  category : Option JsonVal := none
  frames_buffered : Option Nat := none
  frames_analyzed : Option Nat := none
  search_info : Option (Option JsonVal) := none
  protocol : List (String × JsonVal)
  agent_current_action : JsonVal
  agent_action_progress : String

/-- `POST /api/analyze-frame`.  `apiKey` models `GOOGLE_API_KEY` being set;
`reply` is the classifier oracle and `searchRaw` the search oracle.  The
inner `except` catches only `json.JSONDecodeError`; an `AttributeError`
(non-dict parse, or `.lower()` on a non-string `item_name` inside
`search_item_info`'s guard) and an escaped `ValidationError` hit the outer
`except Exception` and become HTTP 500 — with all mutations made so far
kept, since the shared state is mutated in place. -/
def analyze_frame (apiKey : Bool) (reply : String) (frame : Frame) (now : String)
    (enrich : Bool) (searchRaw : Option String) (s : ServerState) :
    Except Nat AnalyzeResponse × ServerState :=
  if apiKey = false then (.error 500, s)
  else
    let r := interpret_image reply frame now "" s.agent s.pm
    match r.raised with
    | some _ => (.error 500, ⟨r.state, r.pm, s.buffer⟩)
    | none =>
      match jsonLoads (stripReply reply) with
      | some (.obj fields) =>
        let status := pyGetD fields "status" (.str "not detected")
        if jstrEq status "started" ∨ jstrEq status "in progress" then
          let buf := bufPush s.buffer frame
          (.ok { success := true, analysis := .obj fields, action_in_progress := true,
                 frames_buffered := some buf.length, protocol := r.pm.get_summary,
                 agent_current_action := r.state.current_action,
                 agent_action_progress := r.state.action_progress.value },
           ⟨r.state, r.pm, buf⟩)
        else if jstrEq status "finished" then
          let detected := pyGetD fields "action" (.str "health action")
          let itemName := pyGetD fields "item_name" (.str "")
          let cat := pyGetD fields "category" (.str "wellness")
          let framesAnalyzed := s.buffer.length
          let mkResp (info : Option JsonVal) : AnalyzeResponse :=
            { success := true, analysis := .obj fields, action_in_progress := false,
              action_completed := some true, detected_action := some detected,
              item_name := some itemName, category := some cat,
              frames_analyzed := some framesAnalyzed, search_info := some info,
              protocol := r.pm.get_summary,
              agent_current_action := r.state.current_action,
              agent_action_progress := r.state.action_progress.value }
          if enrich ∧ truthy itemName then
            match itemName with
            | .str nm =>
              (.ok (mkResp (search_item_info nm cat searchRaw)), ⟨r.state, r.pm, []⟩)
            | _ => (.error 500, ⟨r.state, r.pm, s.buffer⟩)
          else (.ok (mkResp none), ⟨r.state, r.pm, []⟩)
        else
          (.ok { success := true, analysis := .obj fields, action_in_progress := false,
                 action_completed := some false,
                 frames_buffered := some s.buffer.length,
                 protocol := r.pm.get_summary,
                 agent_current_action := r.state.current_action,
                 agent_action_progress := r.state.action_progress.value },
           ⟨r.state, r.pm, s.buffer⟩)
      | some _ => (.error 500, ⟨r.state, r.pm, s.buffer⟩)
      | none =>
        let fallback := JsonVal.obj [("status", .str "unknown"), ("description", .str reply)]
        (.ok { success := true, analysis := fallback, action_in_progress := false,
               action_completed := some false,
               frames_buffered := some s.buffer.length,
               protocol := r.pm.get_summary,
               agent_current_action := r.state.current_action,
               agent_action_progress := r.state.action_progress.value },
         ⟨r.state, r.pm, s.buffer⟩)

/-- A single-quote character, for the f-string below. -/
def quoteCh : String := String.singleton (Char.ofNat 39)

/-- Python `f"{v}"` for the JSON values that can reach the f-string in
`interpret_health_snapshot` (containers are approximated — no claim
evaluates them there). -/
def pyFormat : JsonVal → String
  | .str s => s
  | .num n => toString n
  | .bool b => if b then "True" else "False"
  | .null => "None"
  | .float s => s
  | .arr _ => "[...]"
  | .obj _ => "\x7b...\x7d"

/-- The MCP tool `interpret_health_snapshot` (`main.py`): same buffering
logic as `analyze_frame`, but the reply dict is returned (serialization by
`json.dumps` is left outside the model) and an uncaught exception becomes a
tool error carrying the mutated state. -/
def interpret_health_snapshot (reply : String) (frame : Frame) (now : String)
    (current_action : String) (s : ServerState) :
    Except PyErr (List (String × JsonVal)) × ServerState :=
  let r := interpret_image reply frame now current_action s.agent s.pm
  match r.raised with
  | some e => (.error e, ⟨r.state, r.pm, s.buffer⟩)
  | none =>
    match jsonLoads (stripReply reply) with
    | some (.obj fields) =>
      let status := pyGetD fields "status" (.str "not detected")
      if jstrEq status "started" ∨ jstrEq status "in progress" then
        let buf := bufPush s.buffer frame
        (.ok [("frame_analysis", .obj fields), ("action_progress", status),
              ("frames_buffered", .num buf.length), ("video_analysis", .null)],
         ⟨r.state, r.pm, buf⟩)
      else if jstrEq status "finished" then
        let detected := pyGetD fields "action" (.str "health action")
        let n := s.buffer.length
        let vs : JsonVal :=
          if 0 < n then
            .str ("Action " ++ quoteCh ++ pyFormat detected ++ quoteCh ++ " completed. Captured "
              ++ toString n ++ " frames during the action sequence.")
          else .null
        (.ok [("frame_analysis", .obj fields), ("action_progress", .str "finished"),
              ("detected_action", detected), ("frames_buffered", .num 0),
              ("frames_analyzed", .num n), ("video_analysis", vs),
              ("action_completed", .bool true)],
         ⟨r.state, r.pm, []⟩)
      else
        (.ok [("frame_analysis", .obj fields), ("action_progress", .str "not detected"),
              ("frames_buffered", .num s.buffer.length), ("video_analysis", .null)],
         ⟨r.state, r.pm, s.buffer⟩)
    | some _ => (.error .attr, ⟨r.state, r.pm, s.buffer⟩)
    | none =>
      let fallback := JsonVal.obj [("status", .str "unknown"), ("description", .str reply)]
      (.ok [("frame_analysis", fallback), ("action_progress", .str "not detected"),
            ("frames_buffered", .num s.buffer.length), ("video_analysis", .null)],
       ⟨r.state, r.pm, s.buffer⟩)

/-! ### Derived definitions used by the statements below -/

/-- The `details` dict that `add_completed_action` reads fields from
(`detection.get("details", {})` in the success cases). -/
def detailsListOf (detection : List (String × JsonVal)) : List (String × JsonVal) :=
  match pyGet detection "details" with
  | some (.obj dfs) => dfs
  | _ => []

/-- The exact `ProtocolItem` built by a successful `add_completed_action`. -/
def recordItem (pm : ProtocolManager) (detection : List (String × JsonVal))
    (now : String) : ProtocolItem :=
  { id := "action_" ++ toString pm.id_counter
    name := (recordName detection).strVal
    category := (pyGetD detection "category" (.str "wellness")).strVal
    status := "taken"
    taken_at := some now
    details := [("description", pyGetD detection "description" (.str "")),
                ("quantity", (pyGet (detailsListOf detection) "quantity").getD .null),
                ("dosage", (pyGet (detailsListOf detection) "dosage").getD .null),
                ("brand", (pyGet (detailsListOf detection) "brand").getD .null)] }

/-- The ledger-visible projection of an `add_completed_action` outcome: the
built item, the resulting entry list and the resulting id counter (the raw
`completed_actions` payload store is projected away). -/
def addProj (pm : ProtocolManager) (detection : List (String × JsonVal))
    (now : String) : Except PyErr (ProtocolItem × List ProtocolItem × Nat) :=
  (pm.add_completed_action detection now).map
    (fun x => (x.1, x.2.protocol_items, x.2.id_counter))

/-- Total length of the name lists in a `by_category` dict. -/
def catSize (acc : List (String × List String)) : Nat :=
  (acc.map (fun p => p.2.length)).sum

/-! ### Sanity checks of the embedded parser, and helper lemmas -/

example : jsonLoads "3" = some (.num 3) := rfl
example : jsonLoads "-17 " = some (.num (-17)) := rfl
example : jsonLoads "1.5" = some (.float "1.5") := rfl
example : jsonLoads "[1, \"a\", null]" = some (.arr [.num 1, .str "a", .null]) := rfl
example :
    jsonLoads "\x7b\"status\": \"started\", \"action\": \"eating\"\x7d" =
      some (.obj [("status", .str "started"), ("action", .str "eating")]) := rfl
example : jsonLoads "not json" = none := rfl
example : jsonLoads "\x7b\"a\": 1" = none := rfl
example : jsonLoads "" = none := rfl
example :
    jsonLoads (stripReply "```json\n\x7b\"a\": \x7b\"b\": []\x7d\x7d\n```") =
      some (.obj [("a", .obj [("b", .arr [])])]) := rfl


/-- A JSON value that compares equal to a Python string literal is that
string. -/
theorem jstrEq_true {v : JsonVal} {s : String} (h : jstrEq v s = true) :
    v = .str s := by
  cases v <;> simp [jstrEq] at h ⊢
  exact h

/-- A value passing the `isStr` check is a `.str`. -/
theorem isStr_exists {v : JsonVal} (h : v.isStr = true) : v = .str v.strVal := by
  cases v <;> simp_all [JsonVal.isStr, JsonVal.strVal]

/-- Appending a binding for a different key does not change a lookup. -/
theorem pyGet_append_ne (d : List (String × JsonVal)) (k k' : String) (v : JsonVal)
    (h : ¬ k = k') : pyGet (d ++ [(k, v)]) k' = pyGet d k' := by
  simp [pyGet, List.find?, h]

/-- Characterization of a successful `add_completed_action`. -/
theorem add_completed_action_ok (pm : ProtocolManager) (d : List (String × JsonVal))
    (now : String) (h : recordOk d = true) :
    pm.add_completed_action d now =
      .ok (recordItem pm d now,
           { pm with protocol_items := pm.protocol_items ++ [recordItem pm d now]
                     completed_actions := pm.completed_actions ++ [d]
                     id_counter := pm.id_counter + 1 }) := by
  rw [recordOk, Bool.and_eq_true, Bool.and_eq_true] at h
  obtain ⟨⟨h1, h2⟩, h3⟩ := h
  have hdfs : detailsOf d = .ok (detailsListOf d) := by
    rw [detailsOf, detailsListOf]
    rcases hd : pyGet d "details" with _ | v
    · rfl
    · rw [hd] at h1
      rcases v <;> simp_all
  have hn := isStr_exists h2
  have hc := isStr_exists h3
  rw [ProtocolManager.add_completed_action, hdfs]
  conv_lhs => rw [hn, hc]
  rfl

/-- `add_completed_action` depends, up to the stored raw payload, only on the
four fields it reads. -/
theorem add_congr (pm : ProtocolManager) (d d' : List (String × JsonVal)) (now : String)
    (h1 : detailsOf d = detailsOf d')
    (h2 : recordName d = recordName d')
    (h3 : pyGetD d "category" (.str "wellness") = pyGetD d' "category" (.str "wellness"))
    (h4 : pyGetD d "description" (.str "") = pyGetD d' "description" (.str "")) :
    addProj pm d now = addProj pm d' now := by
  unfold addProj ProtocolManager.add_completed_action
  rw [h1, h2, h3, h4]
  rcases detailsOf d' with e | dfs
  · rfl
  · rcases recordName d' <;> rcases pyGetD d' "category" (.str "wellness") <;> rfl

/-- A reply whose parsed status is known parses to a dict with that status. -/
theorem replyStatus_elim {r : String} {s : JsonVal} (h : replyStatus? r = some s) :
    ∃ fields, jsonLoads (stripReply r) = some (.obj fields) ∧
      pyGetD fields "status" (.str "not detected") = s := by
  unfold replyStatus? at h
  rcases hj : jsonLoads (stripReply r) with _ | v
  · rw [hj] at h; cases h
  · rcases v with _ | b | n | f | s2 | xs | fields <;> rw [hj] at h
    · cases h
    · cases h
    · cases h
    · cases h
    · cases h
    · cases h
    · exact ⟨fields, rfl, by injection h⟩

/-- `interpret_image` on a reply that does not parse: memory appended, rest
unchanged, nothing raised. -/
theorem interpret_image_parsefail (reply : String) (frame : Frame) (now ca : String)
    (st : AgentState) (pm : ProtocolManager)
    (h : jsonLoads (stripReply reply) = none) :
    interpret_image reply frame now ca st pm =
      ⟨none, reply,
        { st with conversation_memory :=
            st.conversation_memory ++ [.human frame, .ai reply] }, pm⟩ := by
  unfold interpret_image
  rw [h]

/-- `interpret_image` on a reply that parses to a non-dict value: the
`AttributeError` from `.get` is swallowed; memory appended, rest unchanged. -/
theorem interpret_image_nondict (reply : String) (frame : Frame) (now ca : String)
    (st : AgentState) (pm : ProtocolManager) (v : JsonVal)
    (h : jsonLoads (stripReply reply) = some v) (hv : ∀ fields, v ≠ .obj fields) :
    interpret_image reply frame now ca st pm =
      ⟨none, reply,
        { st with conversation_memory :=
            st.conversation_memory ++ [.human frame, .ai reply] }, pm⟩ := by
  rcases v with _ | _ | _ | _ | _ | _ | fields
  · unfold interpret_image; rw [h]
  · unfold interpret_image; rw [h]
  · unfold interpret_image; rw [h]
  · unfold interpret_image; rw [h]
  · unfold interpret_image; rw [h]
  · unfold interpret_image; rw [h]
  · exact absurd rfl (hv fields)

/-- `interpret_image` on a `started` classification. -/
theorem interpret_image_started (reply : String) (frame : Frame) (now ca : String)
    (st : AgentState) (pm : ProtocolManager) (fields : List (String × JsonVal))
    (h : jsonLoads (stripReply reply) = some (.obj fields))
    (hs : pyGetD fields "status" (.str "not detected") = .str "started") :
    interpret_image reply frame now ca st pm =
      ⟨none, reply,
        ⟨pyGetD fields "action" (.str ""), .started,
          st.conversation_memory ++ [.human frame, .ai reply]⟩, pm⟩ := by
  simp only [interpret_image, h]
  rw [hs]
  rfl

/-- `interpret_image` on an `in progress` classification. -/
theorem interpret_image_inprogress (reply : String) (frame : Frame) (now ca : String)
    (st : AgentState) (pm : ProtocolManager) (fields : List (String × JsonVal))
    (h : jsonLoads (stripReply reply) = some (.obj fields))
    (hs : pyGetD fields "status" (.str "not detected") = .str "in progress") :
    interpret_image reply frame now ca st pm =
      ⟨none, reply,
        ⟨pyOr (pyGetD fields "action" (.str "")) st.current_action, .inProgress,
          st.conversation_memory ++ [.human frame, .ai reply]⟩, pm⟩ := by
  simp only [interpret_image, h]
  rw [hs]
  rfl

/-- `interpret_image` on a `finished` classification whose payload passes the
record checks: memory cleared, exactly one entry appended. -/
theorem interpret_image_finished_ok (reply : String) (frame : Frame) (now ca : String)
    (st : AgentState) (pm : ProtocolManager) (fields : List (String × JsonVal))
    (h : jsonLoads (stripReply reply) = some (.obj fields))
    (hs : pyGetD fields "status" (.str "not detected") = .str "finished")
    (hok : recordOk fields = true) :
    interpret_image reply frame now ca st pm =
      ⟨none, reply,
        ⟨pyOr (pyGetD fields "action" (.str "")) st.current_action, .finished, []⟩,
        { pm with protocol_items := pm.protocol_items ++ [recordItem pm fields now]
                  completed_actions := pm.completed_actions ++ [fields]
                  id_counter := pm.id_counter + 1 }⟩ := by
  simp only [interpret_image, h]
  rw [hs, add_completed_action_ok pm fields now hok]
  rfl

/-- A classification with any other (or missing) status: memory appended,
nothing else happens. -/
theorem interpret_image_other (reply : String) (frame : Frame) (now ca : String)
    (st : AgentState) (pm : ProtocolManager) (fields : List (String × JsonVal))
    (h : jsonLoads (stripReply reply) = some (.obj fields))
    (hs1 : jstrEq (pyGetD fields "status" (.str "not detected")) "started" = false)
    (hs2 : jstrEq (pyGetD fields "status" (.str "not detected")) "in progress" = false)
    (hs3 : jstrEq (pyGetD fields "status" (.str "not detected")) "finished" = false) :
    interpret_image reply frame now ca st pm =
      ⟨none, reply,
        { st with conversation_memory :=
            st.conversation_memory ++ [.human frame, .ai reply] }, pm⟩ := by
  simp only [interpret_image, h]
  rw [hs1, hs2, hs3]
  rfl

/-- Adding one name to `by_category` grows the total name count by one. -/
theorem catSize_addToCategory (acc : List (String × List String)) (c nm : String) :
    catSize (addToCategory acc c nm) = catSize acc + 1 := by
  induction acc with
  | nil => simp [addToCategory, catSize]
  | cons p rest ih =>
    by_cases hc : p.1 = c
    · simp [addToCategory, hc, catSize, List.sum_cons]
      omega
    · simp [addToCategory, hc, catSize, List.sum_cons] at ih ⊢
      omega

/-- The `by_category` name count equals the number of items. -/
theorem catSize_byCategory (items : List ProtocolItem) :
    catSize (byCategory items) = items.length := by
  suffices h : ∀ acc, catSize (items.foldl
      (fun a it => addToCategory a it.category it.name) acc) = catSize acc + items.length by
    have := h []
    simpa [byCategory, catSize] using this
  induction items with
  | nil => intro acc; simp
  | cons it rest ih =>
    intro acc
    simp only [List.foldl_cons, ih, catSize_addToCategory, List.length_cons]
    omega

/-- `bufPush` keeps the buffer within capacity. -/
theorem bufPush_le (buf : List Frame) (f : Frame)
    (h : buf.length ≤ MAX_BUFFER_FRAMES) :
    (bufPush buf f).length ≤ MAX_BUFFER_FRAMES := by
  simp only [bufPush]
  split
  · simp [List.length_append]; omega
  · simp_all [List.length_append]

/-- At full capacity, `bufPush` evicts exactly the oldest frame. -/
theorem bufPush_evict (buf : List Frame) (f : Frame)
    (h : buf.length = MAX_BUFFER_FRAMES) :
    bufPush buf f = buf.drop 1 ++ [f] := by
  simp only [bufPush]
  rw [if_pos (by simp [List.length_append, h, MAX_BUFFER_FRAMES])]
  rw [List.drop_append_of_le_length (by rw [h]; decide)]

/-- Every `analyze_frame` outcome leaves the frame buffer untouched, pushed,
or cleared. -/
theorem analyze_frame_buffer_cases (apiKey : Bool) (reply : String) (frame : Frame)
    (now : String) (enrich : Bool) (searchRaw : Option String) (s : ServerState) :
    ((analyze_frame apiKey reply frame now enrich searchRaw s).2).buffer = s.buffer ∨
    ((analyze_frame apiKey reply frame now enrich searchRaw s).2).buffer =
      bufPush s.buffer frame ∨
    ((analyze_frame apiKey reply frame now enrich searchRaw s).2).buffer = [] := by
  simp only [analyze_frame]
  split
  · exact .inl rfl
  · split
    · exact .inl rfl
    · split
      · split
        · exact .inr (.inl rfl)
        · split
          · split
            · split
              · exact .inr (.inr rfl)
              · exact .inl rfl
            · exact .inr (.inr rfl)
          · exact .inl rfl
      · exact .inl rfl
      · exact .inl rfl

/-- Every `interpret_health_snapshot` outcome leaves the frame buffer
untouched, pushed, or cleared. -/
theorem snapshot_buffer_cases (reply : String) (frame : Frame) (now ca : String)
    (s : ServerState) :
    ((interpret_health_snapshot reply frame now ca s).2).buffer = s.buffer ∨
    ((interpret_health_snapshot reply frame now ca s).2).buffer =
      bufPush s.buffer frame ∨
    ((interpret_health_snapshot reply frame now ca s).2).buffer = [] := by
  simp only [interpret_health_snapshot]
  split
  · exact .inl rfl
  · split
    · split
      · exact .inr (.inl rfl)
      · split
        · exact .inr (.inr rfl)
        · exact .inl rfl
    · exact .inl rfl
    · exact .inl rfl

/-- Claim C3 (counterexample): `push_update` with an empty label does *not*
retain the previous `current_action`; it overwrites it with the empty
string. -/
theorem c3_push_update_counterexample :
    (AgentState.push_update ⟨.str "drinking water", .started, []⟩
        (.str "") .inProgress).current_action = .str "" ∧
    ¬ ("" = "drinking water") :=
  ⟨rfl, by decide⟩

/-- Claim C3 (amended): `push_update(label, stage)` unconditionally sets
`current_action := label` and `action_progress := stage` and touches nothing
else; retention of the previous label for empty labels is done by the caller
`interpret_image`, not by `push_update`. -/
theorem c3_push_update_amended (st : AgentState) (label : JsonVal)
    (stage : ActionProgress) :
    (st.push_update label stage).current_action = label ∧
    (st.push_update label stage).action_progress = stage ∧
    (st.push_update label stage).conversation_memory = st.conversation_memory :=
  ⟨rfl, rfl, rfl⟩

/-- Claim C4 (counterexample): the summary of a ledger holding an exercise
entry carries no `net_calories`, `calories_burned` or `calories_consumed`
keys at all — `get_summary` computes no calorie totals. -/
theorem c4_summary_counterexample :
    (ProtocolManager.mkNew.add_completed_action
        [("category", .str "exercise"), ("action", .str "Push-ups"),
         ("macros", .obj [("calories", .num (-30))])] "t0").map
      (fun x => (pyGet x.2.get_summary "net_calories",
                 pyGet x.2.get_summary "calories_burned",
                 pyGet x.2.get_summary "calories_consumed",
                 pyGet x.2.get_summary "total_actions")) =
    .ok (none, none, none, some (.num 1)) := rfl

/-- Claim C4 (amended): `get_summary` returns exactly the keys
`total_actions`, `by_category` and `items`; no calorie accumulators exist,
`total_actions` counts the entries, and `by_category` partitions exactly the
entry names. -/
theorem c4_summary_amended (pm : ProtocolManager) :
    pm.get_summary.map Prod.fst = ["total_actions", "by_category", "items"] ∧
    pyGet pm.get_summary "net_calories" = none ∧
    pyGet pm.get_summary "calories_consumed" = none ∧
    pyGet pm.get_summary "calories_burned" = none ∧
    pyGet pm.get_summary "totals" = none ∧
    pyGet pm.get_summary "total_actions" = some (.num pm.protocol_items.length) ∧
    catSize (byCategory pm.protocol_items) = pm.protocol_items.length :=
  ⟨rfl, rfl, rfl, rfl, rfl, rfl, catSize_byCategory _⟩

/-- Claim C5 (counterexample): `add_completed_action` *can* raise — a payload
whose `details` field is present but not a dict raises `AttributeError`. -/
theorem c5_record_counterexample :
    ProtocolManager.mkNew.add_completed_action [("details", .str "oops")] "t0" =
      .error .attr := rfl

/-- Claim C5 (amended): `add_completed_action` never reads macro/micro
fields — appending a `macros` field (of any shape) changes nothing the
ledger records, and the spec's `macros.calories = "not a number"` example
succeeds with the macros ignored: the entry is named "Unknown action" and
carries no `calories` or `macros` field at all.  The function does raise on
payloads whose `details` is a non-dict or whose name/category is not a
string. -/
theorem c5_record_amended :
    (∀ (pm : ProtocolManager) (d : List (String × JsonVal)) (v : JsonVal)
        (now : String),
      addProj pm (d ++ [("macros", v)]) now = addProj pm d now) ∧
    (∀ (pm : ProtocolManager) (now : String),
      (pm.add_completed_action
          [("macros", .obj [("calories", .str "not a number")])] now).map
        (fun x => (x.1.name, pyGet (itemJsonFields x.1) "calories",
                   pyGet (itemJsonFields x.1) "macros")) =
      .ok ("Unknown action", none, none)) := by
  constructor
  · intro pm d v now
    apply add_congr
    · unfold detailsOf
      rw [pyGet_append_ne d "macros" "details" v (by decide)]
    · unfold recordName pyGetD
      rw [pyGet_append_ne d "macros" "item_name" v (by decide),
          pyGet_append_ne d "macros" "action" v (by decide)]
    · unfold pyGetD
      rw [pyGet_append_ne d "macros" "category" v (by decide)]
    · unfold pyGetD
      rw [pyGet_append_ne d "macros" "description" v (by decide)]
  · intro pm now
    rw [add_completed_action_ok pm
      [("macros", .obj [("calories", .str "not a number")])] now rfl]
    rfl

/-- Claim C9: after `clear()` the summary reports zero actions, and the next
appended entry gets the same id (`action_1`) as the very first entry a fresh
manager would create — the id counter is back at its initial value. -/
theorem c9_clear_resets (pm : ProtocolManager) (d : List (String × JsonVal))
    (now : String) :
    pyGet pm.clear.get_summary "total_actions" = some (.num 0) ∧
    (pm.clear.add_completed_action d now).map (fun x => x.1.id) =
      (ProtocolManager.mkNew.add_completed_action d now).map (fun x => x.1.id) ∧
    (recordOk d = true →
      (pm.clear.add_completed_action d now).map (fun x => x.1.id) =
        .ok "action_1") := by
  refine ⟨rfl, rfl, fun h => ?_⟩
  rw [add_completed_action_ok _ _ _ h]
  simp only [Except.map, recordItem, ProtocolManager.clear]
  rfl

/-- Witness for C9 at a concrete non-trivial manager and payload. -/
theorem c9_clear_witness :
    recordOk [("item_name", .str "Water"), ("category", .str "hydration")] = true ∧
    ((ProtocolManager.mk
        [⟨"action_1", "Apple", "meal", none, "taken", some "t", []⟩] [] 5).clear.add_completed_action
        [("item_name", .str "Water"), ("category", .str "hydration")] "t2").map
      (fun x => x.1.id) = .ok "action_1" :=
  ⟨rfl,
   (c9_clear_resets
      (ProtocolManager.mk [⟨"action_1", "Apple", "meal", none, "taken", some "t", []⟩] [] 5)
      [("item_name", .str "Water"), ("category", .str "hydration")] "t2").2.2 rfl⟩


/-- One step of `runFrames` unfolded. -/
theorem runFrames_cons (p : String × Frame) (rest : List (String × Frame))
    (now : String) (st : AgentState) (pm : ProtocolManager) :
    runFrames (p :: rest) now st pm =
      runFrames rest now (interpret_image p.1 p.2 now "" st pm).state
        (interpret_image p.1 p.2 now "" st pm).pm := rfl

/-- Frames classified `in progress` never touch the ledger. -/
theorem runFrames_inprogress_pm (now : String) (pm : ProtocolManager) :
    ∀ (mids : List (String × Frame)) (st : AgentState),
      (∀ p ∈ mids, replyStatus? p.1 = some (.str "in progress")) →
      (runFrames mids now st pm).2 = pm := by
  intro mids
  induction mids with
  | nil => intro st _; rfl
  | cons p rest ih =>
    intro st h
    obtain ⟨fields, hj, hs⟩ := replyStatus_elim (h p (List.mem_cons_self p rest))
    rw [runFrames_cons, interpret_image_inprogress p.1 p.2 now "" st pm fields hj hs]
    exact ih _ (fun q hq => h q (List.mem_cons_of_mem p hq))

/-- Claim C1 (counterexample): a `STARTED("Vitamin D") → FINISHED(no label)`
sequence appends one entry named "Unknown action": the label held in
Tracking State ("Vitamin D") is *not* used when the FINISHED payload omits
one. -/
theorem c1_ledger_counterexample :
    ((runFrames
        [("\x7b\"status\": \"started\", \"action\": \"Vitamin D\"\x7d", [0]),
         ("\x7b\"status\": \"finished\"\x7d", [1])] "t0" {} {}).2.protocol_items.map
      (fun it => it.name)) = ["Unknown action"] ∧
    (interpret_image "\x7b\"status\": \"started\", \"action\": \"Vitamin D\"\x7d"
        [0] "t0" "" {} {}).state.current_action = .str "Vitamin D" ∧
    ¬ ("Unknown action" = "Vitamin D") :=
  ⟨rfl, rfl, by decide⟩

/-- Claim C1 (amended): for a `STARTED → IN_PROGRESS* → FINISHED` sequence
whose FINISHED payload passes the record checks, exactly one entry is
appended, named by the FINISHED payload itself (`item_name` if truthy, else
its `action` value, else "Unknown action") — never by the label tracked in
the agent state. -/
theorem runFrames_eq_append (a b : List (String × Frame)) (now : String)
    (st : AgentState) (pm : ProtocolManager) :
    runFrames (a ++ b) now st pm =
      runFrames b now (runFrames a now st pm).1 (runFrames a now st pm).2 := by
  unfold runFrames
  rw [List.foldl_append]

theorem c1_ledger_amended (st : AgentState) (pm : ProtocolManager) (now : String)
    (pStart : String × Frame) (mids : List (String × Frame)) (pFin : String × Frame)
    (fields : List (String × JsonVal)) (nm : String)
    (h0 : replyStatus? pStart.1 = some (.str "started"))
    (h1 : ∀ p ∈ mids, replyStatus? p.1 = some (.str "in progress"))
    (h2 : jsonLoads (stripReply pFin.1) = some (.obj fields))
    (h3 : pyGetD fields "status" (.str "not detected") = .str "finished")
    (h4 : recordOk fields = true)
    (h5 : recordName fields = .str nm) :
    ((runFrames (pStart :: (mids ++ [pFin])) now st pm).2).protocol_items.map
        (fun it => it.name) =
      pm.protocol_items.map (fun it => it.name) ++ [nm] := by
  obtain ⟨fields0, hj0, hs0⟩ := replyStatus_elim h0
  have hpm : (runFrames (pStart :: mids) now st pm).2 = pm := by
    rw [runFrames_cons,
        interpret_image_started pStart.1 pStart.2 now "" st pm fields0 hj0 hs0]
    exact runFrames_inprogress_pm now pm mids _ h1
  rw [show pStart :: (mids ++ [pFin]) = (pStart :: mids) ++ [pFin] from rfl,
      runFrames_eq_append, hpm]
  show ((interpret_image pFin.1 pFin.2 now ""
      (runFrames (pStart :: mids) now st pm).1 pm).pm).protocol_items.map
        (fun it => it.name) = _
  rw [interpret_image_finished_ok pFin.1 pFin.2 now ""
        (runFrames (pStart :: mids) now st pm).1 pm fields h2 h3 h4]
  simp only [List.map_append, List.map_cons, List.map_nil]
  congr 1
  simp [recordItem, h5, JsonVal.strVal]

/-- Witness for C1 at the spec's own example sequence. -/
theorem c1_ledger_witness :
    replyStatus? "\x7b\"status\": \"started\", \"action\": \"Vitamin D\"\x7d" =
      some (.str "started") ∧
    recordOk [("status", .str "finished"), ("item_name", .str "Vitamin D")] = true ∧
    ((runFrames
        [("\x7b\"status\": \"started\", \"action\": \"Vitamin D\"\x7d", [0]),
         ("\x7b\"status\": \"in progress\"\x7d", [1]),
         ("\x7b\"status\": \"finished\", \"item_name\": \"Vitamin D\"\x7d", [2])]
        "t0" {} ProtocolManager.mkNew).2).protocol_items.map (fun it => it.name) =
      ["Vitamin D"] :=
  ⟨rfl, rfl,
    c1_ledger_amended {} ProtocolManager.mkNew "t0"
      ("\x7b\"status\": \"started\", \"action\": \"Vitamin D\"\x7d", [0])
      [("\x7b\"status\": \"in progress\"\x7d", [1])]
      ("\x7b\"status\": \"finished\", \"item_name\": \"Vitamin D\"\x7d", [2])
      [("status", .str "finished"), ("item_name", .str "Vitamin D")] "Vitamin D"
      rfl (fun p hp => by cases List.mem_singleton.mp hp; rfl) rfl rfl rfl rfl⟩

/-- Claim C2 (counterexample): immediately after a transition into STARTED
the history is *not* empty — the frame/reply exchange appended by
`interpret_image` is still there (no clear happens on STARTED). -/
theorem c2_history_counterexample :
    (interpret_image "\x7b\"status\": \"started\", \"action\": \"eating\"\x7d"
        [0] "t0" "" {} {}).state.action_progress = .started ∧
    (interpret_image "\x7b\"status\": \"started\", \"action\": \"eating\"\x7d"
        [0] "t0" "" {} {}).state.conversation_memory ≠ [] :=
  ⟨rfl, by decide⟩

/-- Claim C2 (amended): history is cleared exactly on successfully committed
FINISHED classifications and on explicit reset; after a STARTED transition
the history holds exactly the just-appended exchange (hence is non-empty),
and a `not detected` frame appends to history without changing the stage, so
history can be non-empty while the stage is FINISHED. -/
theorem c2_history_amended (reply : String) (frame : Frame) (now ca : String)
    (st : AgentState) (pm : ProtocolManager) (fields : List (String × JsonVal))
    (h : jsonLoads (stripReply reply) = some (.obj fields)) :
    (pyGetD fields "status" (.str "not detected") = .str "started" →
      (interpret_image reply frame now ca st pm).state.action_progress = .started ∧
      (interpret_image reply frame now ca st pm).state.conversation_memory =
        st.conversation_memory ++ [.human frame, .ai reply] ∧
      (interpret_image reply frame now ca st pm).state.conversation_memory ≠ []) ∧
    (pyGetD fields "status" (.str "not detected") = .str "finished" →
      recordOk fields = true →
      (interpret_image reply frame now ca st pm).state.action_progress = .finished ∧
      (interpret_image reply frame now ca st pm).state.conversation_memory = []) ∧
    (pyGetD fields "status" (.str "not detected") = .str "not detected" →
      (interpret_image reply frame now ca st pm).state.action_progress =
        st.action_progress ∧
      (interpret_image reply frame now ca st pm).state.conversation_memory =
        st.conversation_memory ++ [.human frame, .ai reply]) ∧
    (∀ s : ServerState, (reset_agent s).agent.conversation_memory = [] ∧
      (reset_agent s).agent.action_progress = .finished) := by
  refine ⟨fun hs => ?_, fun hs hok => ?_, fun hs => ?_, fun s => ⟨rfl, rfl⟩⟩
  · rw [interpret_image_started reply frame now ca st pm fields h hs]
    exact ⟨rfl, rfl, by simp⟩
  · rw [interpret_image_finished_ok reply frame now ca st pm fields h hs hok]
    exact ⟨rfl, rfl⟩
  · rw [interpret_image_other reply frame now ca st pm fields h
        (by rw [hs]; rfl) (by rw [hs]; rfl) (by rw [hs]; rfl)]
    exact ⟨rfl, rfl⟩

/-- Witness for C2 on concrete started / finished / not-detected replies. -/
theorem c2_history_witness :
    jsonLoads (stripReply "\x7b\"status\": \"started\", \"action\": \"eating\"\x7d") =
      some (.obj [("status", .str "started"), ("action", .str "eating")]) ∧
    ((interpret_image "\x7b\"status\": \"started\", \"action\": \"eating\"\x7d"
        [0] "t0" "" {} {}).state.action_progress = .started ∧
      (interpret_image "\x7b\"status\": \"started\", \"action\": \"eating\"\x7d"
        [0] "t0" "" {} {}).state.conversation_memory =
        [] ++ [.human [0],
               .ai "\x7b\"status\": \"started\", \"action\": \"eating\"\x7d"] ∧
      (interpret_image "\x7b\"status\": \"started\", \"action\": \"eating\"\x7d"
        [0] "t0" "" {} {}).state.conversation_memory ≠ []) ∧
    ((interpret_image "\x7b\"status\": \"finished\", \"item_name\": \"Apple\"\x7d"
        [1] "t0" "" {} {}).state.action_progress = .finished ∧
      (interpret_image "\x7b\"status\": \"finished\", \"item_name\": \"Apple\"\x7d"
        [1] "t0" "" {} {}).state.conversation_memory = []) :=
  ⟨rfl,
   (c2_history_amended "\x7b\"status\": \"started\", \"action\": \"eating\"\x7d"
      [0] "t0" "" {} {} [("status", .str "started"), ("action", .str "eating")]
      rfl).1 rfl,
   (c2_history_amended "\x7b\"status\": \"finished\", \"item_name\": \"Apple\"\x7d"
      [1] "t0" "" {} {} [("status", .str "finished"), ("item_name", .str "Apple")]
      rfl).2.1 rfl rfl⟩

/-- Claim C10: every `interpret_image` call appends exactly the two-entry
exchange to the memory — unless a successfully parsed `finished` status
cleared it (the only clearing site besides the explicit reset, which also
empties the memory). -/
theorem c10_memory_appends (reply : String) (frame : Frame) (now ca : String)
    (st : AgentState) (pm : ProtocolManager) :
    ((interpret_image reply frame now ca st pm).state.conversation_memory =
        st.conversation_memory ++ [.human frame, .ai reply] ∨
      ((interpret_image reply frame now ca st pm).state.conversation_memory = [] ∧
        replyStatus? reply = some (.str "finished"))) ∧
    (∀ s : ServerState, (reset_agent s).agent.conversation_memory = []) := by
  refine ⟨?_, fun s => rfl⟩
  unfold interpret_image
  rcases hj : jsonLoads (stripReply reply) with _ | v
  · left; rfl
  · rcases v with _ | _ | _ | _ | _ | _ | fields
    · left; rfl
    · left; rfl
    · left; rfl
    · left; rfl
    · left; rfl
    · left; rfl
    · simp only []
      split
      · left; rfl
      · split
        · left; rfl
        · split
          · rename_i hfin
            split
            · right
              refine ⟨rfl, ?_⟩
              unfold replyStatus?
              rw [hj]
              show some (pyGetD fields "status" (.str "not detected")) =
                some (.str "finished")
              rw [jstrEq_true hfin]
            · left; rfl
            · left; rfl
          · left; rfl

/-- Claim C6: a reply that fails JSON parsing yields an HTTP 200 with the
fallback `{"status": "unknown", "description": <raw reply>}` analysis; the
exchange is appended to history and stage, label, ledger and buffer are all
unchanged. -/
theorem c6_fallback_result (reply : String) (frame : Frame) (now : String)
    (enrich : Bool) (searchRaw : Option String) (s : ServerState)
    (h : jsonLoads (stripReply reply) = none) :
    (analyze_frame true reply frame now enrich searchRaw s).1 =
      .ok { success := true,
            analysis := .obj [("status", .str "unknown"), ("description", .str reply)],
            action_in_progress := false, action_completed := some false,
            frames_buffered := some s.buffer.length,
            protocol := s.pm.get_summary,
            agent_current_action := s.agent.current_action,
            agent_action_progress := s.agent.action_progress.value } ∧
    (analyze_frame true reply frame now enrich searchRaw s).2.agent.current_action =
      s.agent.current_action ∧
    (analyze_frame true reply frame now enrich searchRaw s).2.agent.action_progress =
      s.agent.action_progress ∧
    (analyze_frame true reply frame now enrich searchRaw s).2.agent.conversation_memory =
      s.agent.conversation_memory ++ [.human frame, .ai reply] ∧
    (analyze_frame true reply frame now enrich searchRaw s).2.pm = s.pm ∧
    (analyze_frame true reply frame now enrich searchRaw s).2.buffer = s.buffer := by
  have hstep := interpret_image_parsefail reply frame now "" s.agent s.pm h
  simp only [analyze_frame, hstep, h]
  exact ⟨rfl, rfl, rfl, rfl, rfl, rfl⟩

/-- Witness for C6 on a non-JSON reply. -/
theorem c6_fallback_witness :
    jsonLoads (stripReply "I cannot tell") = none ∧
    (analyze_frame true "I cannot tell" [3] "t0" false none
        ⟨⟨.str "stretching", .inProgress, [.human [2], .ai "prior"]⟩,
         ProtocolManager.mkNew, [[2]]⟩).1 =
      .ok { success := true,
            analysis := .obj [("status", .str "unknown"),
                              ("description", .str "I cannot tell")],
            action_in_progress := false, action_completed := some false,
            frames_buffered := some 1,
            protocol := ProtocolManager.mkNew.get_summary,
            agent_current_action := .str "stretching",
            agent_action_progress := "in progress" } :=
  ⟨rfl,
   (c6_fallback_result "I cannot tell" [3] "t0" false none
      ⟨⟨.str "stretching", .inProgress, [.human [2], .ai "prior"]⟩,
       ProtocolManager.mkNew, [[2]]⟩ rfl).1⟩

/-- Claim C7: `search_item_info` returns absent for an empty or placeholder
item name, and absent (never an exception) when the external call fails or
its reply fails to parse; the embedding reads and writes no program state
at all (its signature takes none), matching the source function. -/
theorem c7_search_absent :
    (∀ (category : JsonVal) (searchRaw : Option String),
      search_item_info "" category searchRaw = none) ∧
    (∀ (category : JsonVal) (searchRaw : Option String),
      search_item_info "unknown" category searchRaw = none ∧
      search_item_info "Unknown" category searchRaw = none) ∧
    (∀ (item_name : String) (category : JsonVal),
      search_item_info item_name category none = none) ∧
    (∀ (item_name : String) (category : JsonVal) (raw : String),
      jsonLoads (stripReply raw) = none →
      search_item_info item_name category (some raw) = none) := by
  refine ⟨fun c sr => rfl, fun c sr => ⟨rfl, rfl⟩, fun nm c => ?_, fun nm c raw h => ?_⟩
  · unfold search_item_info
    split <;> rfl
  · unfold search_item_info
    split
    · rfl
    · exact h

/-- Witness for C7 on an unparseable search reply. -/
theorem c7_search_witness :
    jsonLoads (stripReply "no result") = none ∧
    search_item_info "Vitamin D3" (.str "supplement") (some "no result") = none :=
  ⟨rfl, c7_search_absent.2.2.2 "Vitamin D3" (.str "supplement") "no result" rfl⟩

/-- Claim C8 (counterexample): a FINISHED classification whose ledger
validation fails (here `item_name: 5`) raises out of the commit: the request
returns HTTP 500, the stage *has* transitioned to FINISHED, and the frame
buffer is *not* emptied. -/
theorem c8_buffer_counterexample :
    (analyze_frame true "\x7b\"status\": \"finished\", \"item_name\": 5\x7d"
        [9] "t0" false none
        ⟨⟨.str "stretching", .started, []⟩, {}, [[7]]⟩).1 = .error 500 ∧
    (analyze_frame true "\x7b\"status\": \"finished\", \"item_name\": 5\x7d"
        [9] "t0" false none
        ⟨⟨.str "stretching", .started, []⟩, {}, [[7]]⟩).2.agent.action_progress =
      .finished ∧
    (analyze_frame true "\x7b\"status\": \"finished\", \"item_name\": 5\x7d"
        [9] "t0" false none
        ⟨⟨.str "stretching", .started, []⟩, {}, [[7]]⟩).2.buffer = [[7]] ∧
    ([[7]] : List Frame) ≠ [] :=
  ⟨rfl, rfl, rfl, by decide⟩

/-- Claim C8 (amended): both frame-processing endpoints preserve the
20-frame bound, evict FIFO at capacity, and empty the buffer on every
finished classification whose processing completes without an exception
(a raising commit leaves the buffer untouched, as the counterexample
shows). -/
theorem c8_buffer_amended :
    (∀ (apiKey : Bool) (reply : String) (frame : Frame) (now : String)
        (enrich : Bool) (searchRaw : Option String) (s : ServerState),
      s.buffer.length ≤ MAX_BUFFER_FRAMES →
      ((analyze_frame apiKey reply frame now enrich searchRaw s).2).buffer.length ≤
        MAX_BUFFER_FRAMES) ∧
    (∀ (reply : String) (frame : Frame) (now ca : String) (s : ServerState),
      s.buffer.length ≤ MAX_BUFFER_FRAMES →
      ((interpret_health_snapshot reply frame now ca s).2).buffer.length ≤
        MAX_BUFFER_FRAMES) ∧
    (∀ (reply : String) (frame : Frame) (now : String) (enrich : Bool)
        (searchRaw : Option String) (s : ServerState)
        (fields : List (String × JsonVal)),
      jsonLoads (stripReply reply) = some (.obj fields) →
      pyGetD fields "status" (.str "not detected") = .str "started" →
      s.buffer.length = MAX_BUFFER_FRAMES →
      ((analyze_frame true reply frame now enrich searchRaw s).2).buffer =
        s.buffer.drop 1 ++ [frame]) ∧
    (∀ (reply : String) (frame : Frame) (now : String) (enrich : Bool)
        (searchRaw : Option String) (s : ServerState)
        (fields : List (String × JsonVal)),
      jsonLoads (stripReply reply) = some (.obj fields) →
      pyGetD fields "status" (.str "not detected") = .str "finished" →
      (((analyze_frame true reply frame now enrich searchRaw s).2).buffer = [] ∨
        (analyze_frame true reply frame now enrich searchRaw s).1 = .error 500)) := by
  refine ⟨fun k reply frame now e sr s hle => ?_, fun reply frame now ca s hle => ?_,
          fun reply frame now e sr s fields hj hs hlen => ?_,
          fun reply frame now e sr s fields hj hs => ?_⟩
  · rcases analyze_frame_buffer_cases k reply frame now e sr s with h1 | h1 | h1 <;>
      rw [h1]
    · exact hle
    · exact bufPush_le s.buffer frame hle
    · simp
  · rcases snapshot_buffer_cases reply frame now ca s with h1 | h1 | h1 <;> rw [h1]
    · exact hle
    · exact bufPush_le s.buffer frame hle
    · simp
  · have hstep := interpret_image_started reply frame now "" s.agent s.pm fields hj hs
    simp only [analyze_frame, hstep, hj]
    rw [if_neg (show ¬(true = false) by decide)]
    rw [hs]
    rw [if_pos (show jstrEq (JsonVal.str "started") "started" = true ∨
          jstrEq (JsonVal.str "started") "in progress" = true from Or.inl rfl)]
    exact bufPush_evict s.buffer frame hlen
  · simp only [analyze_frame, hj]
    rw [if_neg (show ¬(true = false) by decide)]
    rw [hs]
    rcases hr : (interpret_image reply frame now "" s.agent s.pm).raised with _ | er
    · simp only [hr]
      rw [if_neg (show ¬(jstrEq (JsonVal.str "finished") "started" = true ∨
            jstrEq (JsonVal.str "finished") "in progress" = true) by decide)]
      rw [if_pos (show jstrEq (JsonVal.str "finished") "finished" = true by decide)]
      split
      · split
        · left; rfl
        · right; rfl
      · left; rfl
    · simp [hr]

/-- Witness for C8: eviction at capacity, bound preservation on both
endpoints, and buffer clearing on a completed finished frame. -/
theorem c8_buffer_witness :
    (List.replicate 20 ([5] : Frame)).length = MAX_BUFFER_FRAMES ∧
    ((analyze_frame true "\x7b\"status\": \"started\"\x7d" [9] "t0" false none
        ⟨{}, {}, List.replicate 20 [5]⟩).2).buffer =
      (List.replicate 20 ([5] : Frame)).drop 1 ++ [[9]] ∧
    ((analyze_frame true "\x7b\"status\": \"started\"\x7d" [9] "t0" false none
        ⟨{}, {}, List.replicate 20 [5]⟩).2).buffer.length ≤ MAX_BUFFER_FRAMES ∧
    ((interpret_health_snapshot "\x7b\"status\": \"in progress\"\x7d" [9] "t0" ""
        ⟨{}, {}, [[1]]⟩).2).buffer.length ≤ MAX_BUFFER_FRAMES ∧
    (((analyze_frame true "\x7b\"status\": \"finished\"\x7d" [9] "t0" false none
        ⟨{}, {}, [[1], [2]]⟩).2).buffer = [] ∨
      (analyze_frame true "\x7b\"status\": \"finished\"\x7d" [9] "t0" false none
        ⟨{}, {}, [[1], [2]]⟩).1 = .error 500) :=
  ⟨rfl,
   c8_buffer_amended.2.2.1 "\x7b\"status\": \"started\"\x7d" [9] "t0" false none
     ⟨{}, {}, List.replicate 20 [5]⟩ [("status", .str "started")] rfl rfl rfl,
   c8_buffer_amended.1 true "\x7b\"status\": \"started\"\x7d" [9] "t0" false none
     ⟨{}, {}, List.replicate 20 [5]⟩ (by decide),
   c8_buffer_amended.2.1 "\x7b\"status\": \"in progress\"\x7d" [9] "t0" ""
     ⟨{}, {}, [[1]]⟩ (by decide),
   c8_buffer_amended.2.2.2 "\x7b\"status\": \"finished\"\x7d" [9] "t0" false none
     ⟨{}, {}, [[1], [2]]⟩ [("status", .str "finished")] rfl rfl⟩
